import Mathlib

/-! Shallow embedding of the transport / command-dispatch core of this
authenticator firmware (files `src/env/tock/mod.rs` and
`src/ctap/main_hid.rs`), together with theorems checking the
natural-language specification against it.

Conventions of the embedding:
* machine integers (`usize` on the 32-bit Tock targets, `u16`, bytes) are
  `Nat` with explicit `% 2 ^ 32`, `% 2 ^ 24`, ... where the code wraps;
* fatal halts (`assert!`, `unwrap` on `None`) are `Option`/`none`;
* platform reads (clock syscalls, USB transmission outcomes, button and
  alarm events, the external CTAP1/CBOR processors) are explicit inputs;
* repository code that is not part of the two embedded files (the
  `crate::timer` alarm timer, the `ctap/hid` packet helpers) is modelled
  from the specification, marked `Modelled from the spec:` in its
  doc comment.
-/

namespace OpenSK

/-! Monotonic clock (`src/env/tock/mod.rs`, lines 479-529) -/

/-- A timer of the Tock clock: holds the wrapped 24-bit end tick
(`pub struct TockTimer { end_tick: usize }`). -/
structure TockTimer where
  end_tick : Nat
  deriving DecidableEq, Repr

/-- The helper `wrapping_add_u24`: `lhs.wrapping_add(rhs) & 0xffffff` on 32-bit `usize`. -/
def wrapping_add_u24 (lhs rhs : Nat) : Nat :=
  ((lhs + rhs) % 2 ^ 32) % 2 ^ 24

/-- The helper `wrapping_sub_u24`: `lhs.wrapping_sub(rhs) & 0xffffff` on 32-bit `usize`.
Rust `wrapping_sub` is subtraction modulo `2 ^ 32`. -/
def wrapping_sub_u24 (lhs rhs : Nat) : Nat :=
  ((lhs + (2 ^ 32 - rhs % 2 ^ 32)) % 2 ^ 32) % 2 ^ 24

/-- Rust `usize::checked_mul` on the 32-bit targets: `none` on overflow. -/
def checked_mul (a b : Nat) : Option Nat :=
  if a * b < 2 ^ 32 then some (a * b) else none

/-- The source `TockClock::make_timer`, with the two platform syscall results
(`GET_CLOCK_FREQUENCY`, `GET_CLOCK_VALUE`) passed as inputs.
`none` models a fatal halt: the `unwrap` of `checked_mul` or the
`assert!(delta_tick < 0x800000)`. -/
def make_timer (clock_frequency start_tick milliseconds : Nat) : Option TockTimer :=
  match checked_mul (clock_frequency / 2) milliseconds with
  | none => none
  | some product =>
    let delta_tick := product / 500
    if delta_tick < 0x800000 then
      some ⟨wrapping_add_u24 start_tick delta_tick⟩
    else
      none

/-- The source `TockClock::check_timer`, with the `GET_CLOCK_VALUE` syscall result
passed as the input `cur_tick`.  The source returns `None` when
`wrapping_sub_u24(timer.end_tick, cur_tick) < 0x800000` and
`Some(timer)` otherwise. -/
def check_timer (timer : TockTimer) (cur_tick : Nat) : Option TockTimer :=
  if wrapping_sub_u24 timer.end_tick cur_tick < 0x800000 then
    none
  else
    some timer

/-! Arithmetic lemmas linking the wrapping helpers to mathematical mod -/

theorem wrapping_add_u24_eq_mod (l r : Nat) :
    wrapping_add_u24 l r = (l + r) % 2 ^ 24 := by
  unfold wrapping_add_u24
  omega

theorem wrapping_sub_u24_int (l r : Nat) :
    (wrapping_sub_u24 l r : Int) = ((l : Int) - r) % 2 ^ 24 := by
  unfold wrapping_sub_u24
  omega

theorem wrapping_sub_u24_lt_iff (l r : Nat) :
    wrapping_sub_u24 l r < 0x800000 ↔ ((l : Int) - r) % 2 ^ 24 < 2 ^ 23 := by
  have h := wrapping_sub_u24_int l r
  omega

/-! C1: the `check_timer` elapsed test -/

/-- C1, counterexample: the claim states that `check_timer` returns
`Some(timer)` (still pending) exactly when
`(end_tick - cur_tick) mod 2 ^ 24 < 2 ^ 23`.  At the concrete input
`end_tick = 5`, `cur_tick = 0` the delta is `5 < 2 ^ 23`, yet the source
returns `None`, so the claim as stated is false. -/
theorem check_timer_low_delta_is_none :
    ((5 : Int) - 0) % 2 ^ 24 < 2 ^ 23 ∧
      check_timer ⟨5⟩ 0 = none ∧ check_timer ⟨5⟩ 0 ≠ some ⟨5⟩ := by
  refine ⟨by decide, by decide, by decide⟩

/-- C1, amended: `check_timer` returns `none` exactly when
`(timer.end_tick - cur_tick) mod 2 ^ 24` is strictly less than `2 ^ 23`,
and returns `some timer` otherwise; in particular, for a timer created
near the top of the 24-bit tick range (so that `start + delta` wraps),
this rule takes the `none` branch for all current ticks just past
wraparound, for all deltas `< 2 ^ 23`. -/
theorem check_timer_option_encoding :
    (∀ (t : TockTimer) (cur : Nat),
        (check_timer t cur = none ↔ ((t.end_tick : Int) - cur) % 2 ^ 24 < 2 ^ 23) ∧
        (check_timer t cur = some t ↔ ¬ ((t.end_tick : Int) - cur) % 2 ^ 24 < 2 ^ 23)) ∧
    (∀ start delta cur : Nat,
        start < 2 ^ 24 → delta < 2 ^ 23 → 2 ^ 24 ≤ start + delta →
        cur ≤ start + delta - 2 ^ 24 →
        check_timer ⟨(start + delta) % 2 ^ 24⟩ cur = none) := by
  have key : ∀ (t : TockTimer) (cur : Nat),
      (check_timer t cur = none ↔ ((t.end_tick : Int) - cur) % 2 ^ 24 < 2 ^ 23) ∧
      (check_timer t cur = some t ↔ ¬ ((t.end_tick : Int) - cur) % 2 ^ 24 < 2 ^ 23) := by
    intro t cur
    have h := wrapping_sub_u24_lt_iff t.end_tick cur
    unfold check_timer
    by_cases hc : wrapping_sub_u24 t.end_tick cur < 0x800000 <;> simp [hc] <;> omega
  refine ⟨key, ?_⟩
  intro start delta cur h1 h2 h3 h4
  rw [((key ⟨(start + delta) % 2 ^ 24⟩ cur).1)]
  show (((start + delta) % 2 ^ 24 : Nat) - (cur : Int)) % 2 ^ 24 < 2 ^ 23
  omega

/-- C1, witness for the amended wraparound clause: a timer created at
start tick `2 ^ 24 - 1` with delta `2` wraps to end tick `1`; at current
tick `0` (just past wraparound) `check_timer` returns `none`. -/
theorem check_timer_option_encoding_w :
    check_timer ⟨(16777215 + 2) % 2 ^ 24⟩ 0 = none :=
  check_timer_option_encoding.2 16777215 2 0 (by decide) (by decide) (by decide)
    (by decide)

/-! C6: `make_timer` -/

/-- C6: `make_timer` computes
`delta_ticks = duration_ms * (frequency / 2) / 500` in integer
arithmetic, halts fatally (`none`) exactly when `delta_ticks ≥ 2 ^ 23`
(either through the `assert!` or through the `checked_mul` unwrap, whose
overflow also forces `delta_ticks ≥ 2 ^ 23`), and otherwise returns a
timer whose `end_tick` is `(current_tick + delta_ticks) mod 2 ^ 24`. -/
theorem make_timer_delta_and_end_tick (clock_frequency start_tick milliseconds : Nat) :
    (make_timer clock_frequency start_tick milliseconds = none ↔
      2 ^ 23 ≤ milliseconds * (clock_frequency / 2) / 500) ∧
    (∀ t, make_timer clock_frequency start_tick milliseconds = some t →
      t.end_tick = (start_tick + milliseconds * (clock_frequency / 2) / 500) % 2 ^ 24) := by
  have hcomm : milliseconds * (clock_frequency / 2) = clock_frequency / 2 * milliseconds :=
    Nat.mul_comm _ _
  unfold make_timer checked_mul
  by_cases hov : clock_frequency / 2 * milliseconds < 2 ^ 32
  · simp only [hov, if_true]
    by_cases hd : clock_frequency / 2 * milliseconds / 500 < 0x800000
    · simp only [hd, if_true]
      constructor
      · constructor
        · intro h
          exact absurd h (by simp)
        · intro h
          omega
      · intro t ht
        have : t = ⟨wrapping_add_u24 start_tick (clock_frequency / 2 * milliseconds / 500)⟩ := by
          exact (Option.some.injEq _ _ ▸ ht).symm ▸ rfl
        rw [this, wrapping_add_u24_eq_mod, hcomm]
    · simp only [hd, if_false]
      constructor
      · simp only [true_iff]
        omega
      · intro t ht
        exact absurd ht (by simp)
  · simp only [hov, if_false]
    constructor
    · simp only [true_iff]
      omega
    · intro t ht
      exact absurd ht (by simp)

/-- C6, witness: frequency 32768 Hz, start tick `16777116` (100 below the
wrap point), duration 5000 ms gives delta `163840` ticks and a wrapped
end tick of `163740`. -/
theorem make_timer_delta_and_end_tick_w :
    (⟨163740⟩ : TockTimer).end_tick = (16777116 + 5000 * (32768 / 2) / 500) % 2 ^ 24 :=
  (make_timer_delta_and_end_tick 32768 16777116 5000).2 ⟨163740⟩ (by decide)

/-! HID message layer (`src/ctap/main_hid.rs`)

The `ctap/hid` module itself is not part of the embedded sources; its
data types and helpers used by `main_hid.rs` are modelled from the
specification below. -/

/-- Modelled from the spec: the CTAPHID command opcodes of section 6
(`CtapHidCommand` of the `ctap/hid` module, which is not under the
embedded sources). -/
inductive CtapHidCommand
  | Ping
  | Msg
  | Lock
  | Init
  | Wink
  | Cbor
  | Cancel
  | Keepalive
  | Error
  deriving DecidableEq, Repr

/-- Modelled from the spec: the opcode byte of each command.  The values
for ping (`0x01`), wink (`0x08`) and cancel (`0x11`) are pinned by the
packets built in the source's own tests (`0x81`, `0x88`, `0x91` with the
top initialization bit set). -/
def CtapHidCommand.toByte : CtapHidCommand → Nat
  | .Ping => 0x01
  | .Msg => 0x03
  | .Lock => 0x04
  | .Init => 0x06
  | .Wink => 0x08
  | .Cbor => 0x10
  | .Cancel => 0x11
  | .Keepalive => 0x3b
  | .Error => 0x3f

/-- Modelled from the spec: the HID-level error statuses of section 6
(`CtapHidError` of the `ctap/hid` module). -/
inductive CtapHidError
  | InvalidCmd
  | InvalidLen
  | InvalidSeq
  | MsgTimeout
  | ChannelBusy
  | InvalidChannel
  | Other
  deriving DecidableEq, Repr

/-- Modelled from the spec: the single error status byte. -/
def CtapHidError.toByte : CtapHidError → Nat
  | .InvalidCmd => 0x01
  | .InvalidLen => 0x03
  | .InvalidSeq => 0x04
  | .MsgTimeout => 0x05
  | .ChannelBusy => 0x06
  | .InvalidChannel => 0x0b
  | .Other => 0x7f

/-- A reassembled logical message: channel ID (4 opaque bytes, taken as
one number), command opcode and payload bytes. -/
structure Message where
  cid : Nat
  cmd : CtapHidCommand
  payload : List Nat
  deriving DecidableEq, Repr

/-- Modelled from the spec: `CtapHid::error_message` — every error is
returned as a single-byte payload under the error opcode, on the same
channel that triggered it (section 6). -/
def error_message (cid : Nat) (error : CtapHidError) : Message :=
  ⟨cid, .Error, [error.toByte]⟩

/-- Modelled from the spec: `crate::timer::LibtockAlarmTimer`, the timer
held by the wink permission.  It records the expiry tick computed from
the clock, like `TockTimer`. -/
structure LibtockAlarmTimer where
  end_tick : Nat
  deriving DecidableEq, Repr

/-- Modelled from the spec: `LibtockAlarmTimer::start(duration)` computes
`expiry = now + duration` using the clock (spec 4.2), converting
milliseconds to ticks with the clock rule of spec 4.5, and fails — a
fatal invariant violation per spec 4.2/7, modelled as `none` like the
in-source `make_timer` assert — if the tick delta for the duration
reaches or exceeds `2 ^ 23`.  The platform frequency and current tick
are passed as inputs. -/
def LibtockAlarmTimer.start (clock_frequency now milliseconds : Nat) :
    Option LibtockAlarmTimer :=
  if clock_frequency / 2 * milliseconds / 500 < 0x800000 then
    some ⟨wrapping_add_u24 now (clock_frequency / 2 * milliseconds / 500)⟩
  else
    none

/-- Modelled from the spec: `LibtockAlarmTimer::has_elapsed`, the query
`should_wink` composes with `is_some`.  Spec 4.2 makes the composite
grant test true exactly while `now` has not passed the expiry under the
wrap-aware comparison of spec 4.4, and the source's own wink test
(`should_wink` true immediately after a grant) pins the same encoding,
so the timer is returned while the expiry has not passed and `none`
afterwards.  The current tick is passed as the input `now`. -/
def LibtockAlarmTimer.has_elapsed (t : LibtockAlarmTimer) (now : Nat) :
    Option LibtockAlarmTimer :=
  if wrapping_sub_u24 t.end_tick now < 0x800000 then some t else none

/-- The HID dispatcher state.  The source declares the reassembler
(`hid: CtapHid<E>`) next to the permission; the reassembler is not
touched by any of the embedded operations, so only the wink permission is
carried.  The permission is used as an optional timer throughout the
source (`None` / `Some(...)` assignments, `is_some`, `unwrap`). -/
structure MainHid where
  wink_permission : Option LibtockAlarmTimer
  deriving DecidableEq, Repr

/-- The constant `MainHid::WINK_TIMEOUT_DURATION`: 5000 milliseconds. -/
def WINK_TIMEOUT_DURATION : Nat := 5000

/-- The source `MainHid::should_wink`:
`self.wink_permission.is_some() && self.wink_permission.unwrap().has_elapsed().is_some()`.
The `unwrap` is modelled with a default that is only reached when the
left conjunct already failed, as in the short-circuiting source. -/
def MainHid.should_wink (m : MainHid) (now : Nat) : Bool :=
  m.wink_permission.isSome && ((m.wink_permission.getD ⟨0⟩).has_elapsed now).isSome

/-- Rust `u16::to_be_bytes` of a status code. -/
def u16_to_be_bytes (code : Nat) : List Nat :=
  [code % 2 ^ 16 / 2 ^ 8, code % 2 ^ 8]

/-- Modelled from the spec: the 2-byte big-endian success status word of
the legacy bridge (`Ctap1StatusCode::SW_SUCCESS.into()`); the numeric
value is the standard ISO success word and is not pinned by the spec. -/
def SW_SUCCESS : Nat := 0x9000

/-- The source `MainHid::ctap1_error_message`: the error status code as a 2-byte
big-endian payload under the legacy-bridge opcode.  The status code is
taken as its `u16` value (`error_code.into()`). -/
def ctap1_error_message (cid : Nat) (error_code : Nat) : Message :=
  ⟨cid, .Msg, u16_to_be_bytes error_code⟩

/-- The source `MainHid::ctap1_success_message`: the returned bytes with the 2-byte
big-endian success status appended, under the legacy-bridge opcode. -/
def ctap1_success_message (cid : Nat) (payload : List Nat) : Message :=
  ⟨cid, .Msg, payload ++ u16_to_be_bytes SW_SUCCESS⟩

/-- The source `MainHid::process_message`.  External collaborators are inputs:
`with_ctap1` is the legacy-support feature, `ctap1_result` the outcome of
`ctap1::Ctap1Command::process_command` (error as `u16` status code),
`cbor_response` the bytes from `ctap_state.process_command`, and
`clock_frequency` / `now` the platform clock state used when a wink
grant starts its timer.  The result is `none` when the timer start of
the wink grant halts fatally (spec 4.2/7), since that halt propagates
out of `process_message`; every other path returns a state/response
pair. -/
def MainHid.process_message (m : MainHid) (with_ctap1 : Bool)
    (ctap1_result : Except Nat (List Nat)) (cbor_response : List Nat)
    (clock_frequency now : Nat) (message : Message) : Option (MainHid × Message) :=
  let m2 : MainHid := { m with wink_permission := none }
  let cid := message.cid
  match message.cmd with
  | .Msg =>
    if with_ctap1 = false then
      some (m2, error_message cid .InvalidCmd)
    else
      match ctap1_result with
      | .ok payload => some (m2, ctap1_success_message cid payload)
      | .error ctap1_status_code => some (m2, ctap1_error_message cid ctap1_status_code)
  | .Cbor => some (m2, ⟨cid, .Cbor, cbor_response⟩)
  | .Wink =>
    if message.payload.isEmpty then
      match LibtockAlarmTimer.start clock_frequency now WINK_TIMEOUT_DURATION with
      | none => none
      | some timer => some ({ m2 with wink_permission := some timer }, message)
    else
      some (m2, error_message cid .InvalidLen)
  | _ => some (m2, message)

/-- If the wink permission is absent, `should_wink` is false at every
time. -/
theorem should_wink_of_none (m : MainHid) (now : Nat)
    (h : m.wink_permission = none) : m.should_wink now = false := by
  simp [MainHid.should_wink, h]

/-- Characterization of `should_wink`: true exactly on a held, unexpired
grant. -/
theorem should_wink_true_iff (m : MainHid) (now : Nat) :
    m.should_wink now = true ↔
      ∃ t, m.wink_permission = some t ∧ ((t.end_tick : Int) - now) % 2 ^ 24 < 2 ^ 23 := by
  match hm : m.wink_permission with
  | none => simp [MainHid.should_wink, hm]
  | some t =>
    have h := wrapping_sub_u24_lt_iff t.end_tick now
    by_cases hc : wrapping_sub_u24 t.end_tick now < 0x800000
    · simp [MainHid.should_wink, LibtockAlarmTimer.has_elapsed, hm, hc]
      omega
    · simp [MainHid.should_wink, LibtockAlarmTimer.has_elapsed, hm, hc]
      omega

/-- Evaluating `should_wink` on a held grant reduces to the wrap-aware
timer comparison. -/
theorem should_wink_some (t : LibtockAlarmTimer) (now : Nat) :
    (⟨some t⟩ : MainHid).should_wink now =
      decide (wrapping_sub_u24 t.end_tick now < 0x800000) := by
  by_cases hc : wrapping_sub_u24 t.end_tick now < 0x800000 <;>
    simp [MainHid.should_wink, LibtockAlarmTimer.has_elapsed, hc]

/-- A grant of `d < 2 ^ 23` ticks placed at tick `T` is inside the
unambiguous half-window at `T` and outside it one tick past expiry. -/
theorem wrap_grant_window (T d : Nat) (hd : d < 2 ^ 23) :
    wrapping_sub_u24 ((T + d) % 2 ^ 24) T < 0x800000 ∧
    ¬ wrapping_sub_u24 ((T + d) % 2 ^ 24) (T + d + 1) < 0x800000 := by
  have h1 := wrapping_sub_u24_int ((T + d) % 2 ^ 24) T
  have h2 := wrapping_sub_u24_int ((T + d) % 2 ^ 24) (T + d + 1)
  omega

/-! C2: `should_wink` -/

/-- C2: `should_wink` is true exactly when a wink grant exists and `now`
has not passed the grant's expiry under the wrap-aware comparison; in
particular, after a Wink command with empty payload at tick `T` (with the
5000 ms grant converting to fewer than `2 ^ 23` ticks), `should_wink` is
true at `T` and false one tick after the expiry, at `T + 5000 ms + 1`. -/
theorem should_wink_iff_granted :
    (∀ (m : MainHid) (now : Nat), m.should_wink now = true ↔
      ∃ t, m.wink_permission = some t ∧ ((t.end_tick : Int) - now) % 2 ^ 24 < 2 ^ 23) ∧
    (∀ (m : MainHid) (with_ctap1 : Bool) (r : Except Nat (List Nat)) (cb : List Nat)
        (clock_frequency T cid : Nat),
      clock_frequency / 2 * 5000 / 500 < 2 ^ 23 →
      ∃ res, m.process_message with_ctap1 r cb clock_frequency T ⟨cid, .Wink, []⟩
          = some res ∧
        res.1.should_wink T = true ∧
        res.1.should_wink (T + clock_frequency / 2 * 5000 / 500 + 1) = false) := by
  refine ⟨should_wink_true_iff, ?_⟩
  intro m with_ctap1 r cb clock_frequency T cid hd
  have hw := wrap_grant_window T (clock_frequency / 2 * 5000 / 500) hd
  have hstart : LibtockAlarmTimer.start clock_frequency T WINK_TIMEOUT_DURATION =
      some ⟨(T + clock_frequency / 2 * 5000 / 500) % 2 ^ 24⟩ := by
    unfold LibtockAlarmTimer.start WINK_TIMEOUT_DURATION
    rw [if_pos (by omega), wrapping_add_u24_eq_mod]
  refine ⟨(⟨some ⟨(T + clock_frequency / 2 * 5000 / 500) % 2 ^ 24⟩⟩, ⟨cid, .Wink, []⟩),
    ?_, ?_, ?_⟩
  · unfold MainHid.process_message
    dsimp only
    rw [hstart]
    rfl
  · rw [should_wink_some]
    exact decide_eq_true hw.1
  · rw [should_wink_some]
    exact decide_eq_false hw.2

/-- C2, witness: frequency 32768 Hz, wink at tick 0; `should_wink` is
true at tick 0 and false at tick `163841` (one past the 5000 ms
expiry). -/
theorem should_wink_iff_granted_w :
    ∃ res, (⟨none⟩ : MainHid).process_message false (.error 0) [] 32768 0
        ⟨0, .Wink, []⟩ = some res ∧
      res.1.should_wink 0 = true ∧
      res.1.should_wink (0 + 32768 / 2 * 5000 / 500 + 1) = false :=
  should_wink_iff_granted.2 ⟨none⟩ false (.error 0) [] 32768 0 0 (by decide)

/-! C3: every non-wink message revokes the wink permission -/

/-- C3: for every message other than a Wink command with empty payload,
`process_message` leaves the wink permission revoked (`None`, the
Waiting state), so `should_wink` is false at every later time, even if a
valid unexpired grant existed before the call. -/
theorem non_wink_revokes_permission (m : MainHid) (with_ctap1 : Bool)
    (r : Except Nat (List Nat)) (cb : List Nat) (clock_frequency now : Nat)
    (message : Message) (now2 : Nat)
    (h : ¬ (message.cmd = .Wink ∧ message.payload = [])) :
    ∃ res, m.process_message with_ctap1 r cb clock_frequency now message = some res ∧
      res.1.wink_permission = none ∧ res.1.should_wink now2 = false := by
  obtain ⟨cid, cmd, payload⟩ := message
  have key : ∃ res, m.process_message with_ctap1 r cb clock_frequency now
      ⟨cid, cmd, payload⟩ = some res ∧ res.1.wink_permission = none := by
    cases cmd
    case Wink =>
      cases payload with
      | nil => exact absurd ⟨rfl, rfl⟩ h
      | cons a l => exact ⟨_, rfl, rfl⟩
    case Msg => cases with_ctap1 <;> cases r <;> exact ⟨_, rfl, rfl⟩
    all_goals exact ⟨_, rfl, rfl⟩
  obtain ⟨res, hres, hperm⟩ := key
  exact ⟨res, hres, hperm, should_wink_of_none _ _ hperm⟩

/-- C3, witness: a Ping message processed while an unexpired grant
(expiry tick 100, current tick 0) is held revokes the grant. -/
theorem non_wink_revokes_permission_w :
    ∃ res, (⟨some ⟨100⟩⟩ : MainHid).process_message true (.ok []) [] 32768 0
        ⟨0, .Ping, []⟩ = some res ∧
      res.1.wink_permission = none ∧ res.1.should_wink 0 = false :=
  non_wink_revokes_permission ⟨some ⟨100⟩⟩ true (.ok []) [] 32768 0 ⟨0, .Ping, []⟩ 0
    (by decide)

/-! C4: the Wink command -/

/-- C4: a Wink message with empty payload grants the wink permission for
the fixed 5000 ms duration — the grant's expiry is the current tick plus
the tick conversion of 5000 ms — and echoes the input message back
unchanged (same channel, same opcode, empty payload), provided the tick
delta of the 5000 ms duration is below `2 ^ 23`; when that delta reaches
`2 ^ 23`, the spec-modelled timer start halts fatally (spec 4.2/7) and
the halt propagates (`none`).  A Wink message with non-empty payload
produces an `InvalidLen` error message on the same channel and grants
nothing. -/
theorem wink_grant_or_invalid_len (m : MainHid) (with_ctap1 : Bool)
    (r : Except Nat (List Nat)) (cb : List Nat) (clock_frequency now cid : Nat)
    (payload : List Nat) :
    WINK_TIMEOUT_DURATION = 5000 ∧
    (clock_frequency / 2 * 5000 / 500 < 2 ^ 23 → payload = [] →
      m.process_message with_ctap1 r cb clock_frequency now ⟨cid, .Wink, payload⟩ =
        some (⟨some ⟨(now + clock_frequency / 2 * 5000 / 500) % 2 ^ 24⟩⟩,
          ⟨cid, .Wink, payload⟩)) ∧
    (2 ^ 23 ≤ clock_frequency / 2 * 5000 / 500 → payload = [] →
      m.process_message with_ctap1 r cb clock_frequency now ⟨cid, .Wink, payload⟩ =
        none) ∧
    (payload ≠ [] →
      m.process_message with_ctap1 r cb clock_frequency now ⟨cid, .Wink, payload⟩ =
        some (⟨none⟩, error_message cid .InvalidLen)) := by
  refine ⟨rfl, ?_, ?_, ?_⟩
  · intro hd hp
    subst hp
    have hstart : LibtockAlarmTimer.start clock_frequency now WINK_TIMEOUT_DURATION =
        some ⟨(now + clock_frequency / 2 * 5000 / 500) % 2 ^ 24⟩ := by
      unfold LibtockAlarmTimer.start WINK_TIMEOUT_DURATION
      rw [if_pos (by omega), wrapping_add_u24_eq_mod]
    unfold MainHid.process_message
    dsimp only
    rw [hstart]
    rfl
  · intro hd hp
    subst hp
    have hstart : LibtockAlarmTimer.start clock_frequency now WINK_TIMEOUT_DURATION =
        none := by
      unfold LibtockAlarmTimer.start WINK_TIMEOUT_DURATION
      rw [if_neg (by omega)]
    unfold MainHid.process_message
    dsimp only
    rw [hstart]
    rfl
  · intro hp
    cases payload with
    | nil => exact absurd rfl hp
    | cons a l => rfl

/-- C4, witness: at frequency 32768 Hz and tick 7 on channel 9, the
empty Wink grants until the wrapped expiry tick and echoes, and `[1]`
draws `InvalidLen`; at the out-of-range frequency `2 ^ 31` the 5000 ms
delta reaches `2 ^ 23` and the start halts. -/
theorem wink_grant_or_invalid_len_w :
    ((⟨none⟩ : MainHid).process_message false (.error 0) [] 32768 7 ⟨9, .Wink, []⟩ =
      some (⟨some ⟨(7 + 32768 / 2 * 5000 / 500) % 2 ^ 24⟩⟩, ⟨9, .Wink, []⟩)) ∧
    ((⟨none⟩ : MainHid).process_message false (.error 0) [] 2147483648 7
        ⟨9, .Wink, []⟩ = none) ∧
    ((⟨none⟩ : MainHid).process_message false (.error 0) [] 32768 7 ⟨9, .Wink, [1]⟩ =
      some (⟨none⟩, error_message 9 .InvalidLen)) :=
  ⟨(wink_grant_or_invalid_len ⟨none⟩ false (.error 0) [] 32768 7 9 []).2.1
      (by decide) rfl,
   (wink_grant_or_invalid_len ⟨none⟩ false (.error 0) [] 2147483648 7 9 []).2.2.1
      (by decide) rfl,
   (wink_grant_or_invalid_len ⟨none⟩ false (.error 0) [] 32768 7 9 [1]).2.2.2
      (by decide)⟩

/-! C8: the legacy-bridge (Msg) command -/

/-- C8: with legacy support disabled, a Msg message draws an
`InvalidCmd` error on the same channel; with legacy support enabled, a
successful legacy-bridge call yields its bytes with the 2-byte
big-endian success status appended, and a failing call yields exactly
the 2-byte big-endian error status code, both under the legacy-bridge
opcode.  The last clause makes the big-endian 2-byte encoding explicit
for every 16-bit status code. -/
theorem msg_command_dispatch (m : MainHid) (r : Except Nat (List Nat)) (cb : List Nat)
    (clock_frequency now cid : Nat) (payload : List Nat) :
    (m.process_message false r cb clock_frequency now ⟨cid, .Msg, payload⟩ =
      some (⟨none⟩, error_message cid .InvalidCmd)) ∧
    (∀ bytes, r = .ok bytes →
      m.process_message true r cb clock_frequency now ⟨cid, .Msg, payload⟩ =
        some (⟨none⟩, ⟨cid, .Msg, bytes ++ u16_to_be_bytes SW_SUCCESS⟩)) ∧
    (∀ code, r = .error code →
      m.process_message true r cb clock_frequency now ⟨cid, .Msg, payload⟩ =
        some (⟨none⟩, ⟨cid, .Msg, u16_to_be_bytes code⟩)) ∧
    (∀ code, code < 2 ^ 16 →
      u16_to_be_bytes code = [code / 2 ^ 8, code % 2 ^ 8] ∧
      (u16_to_be_bytes code).length = 2) := by
  refine ⟨rfl, ?_, ?_, ?_⟩
  · intro bytes h
    subst h
    rfl
  · intro code h
    subst h
    rfl
  · intro code hc
    refine ⟨?_, rfl⟩
    unfold u16_to_be_bytes
    rw [Nat.mod_eq_of_lt hc]

/-- C8, witness: a successful legacy call returning `[0xAA]` gains the
success trailer; status code `0x6A80` comes back as its two bytes. -/
theorem msg_command_dispatch_w :
    (⟨none⟩ : MainHid).process_message true (.ok [0xAA]) [] 0 0 ⟨3, .Msg, [5]⟩ =
      some (⟨none⟩, ⟨3, .Msg, [0xAA] ++ u16_to_be_bytes SW_SUCCESS⟩) ∧
    (⟨none⟩ : MainHid).process_message true (.error 0x6A80) [] 0 0 ⟨3, .Msg, [5]⟩ =
      some (⟨none⟩, ⟨3, .Msg, u16_to_be_bytes 0x6A80⟩) :=
  ⟨(msg_command_dispatch ⟨none⟩ (.ok [0xAA]) [] 0 0 3 [5]).2.1 [0xAA] rfl,
   (msg_command_dispatch ⟨none⟩ (.error 0x6A80) [] 0 0 3 [5]).2.2.1 0x6A80 rfl⟩

/-! Keepalive transmission (`src/env/tock/mod.rs`, lines 276-334) -/

/-- The USB endpoints (`usb_ctap_hid::UsbEndpoint`). -/
inductive UsbEndpoint
  | MainHid
  | VendorHid
  deriving DecidableEq, Repr

/-- The dispatcher channels (`crate::ctap::Channel`). -/
inductive Channel
  | MainHid (cid : Nat)
  | VendorHid (cid : Nat)
  deriving DecidableEq, Repr

/-- The CTAP2 status codes surfaced by the user-presence wait. -/
inductive Ctap2StatusCode
  | CTAP2_ERR_KEEPALIVE_CANCEL
  | CTAP2_ERR_USER_ACTION_TIMEOUT
  deriving DecidableEq, Repr

/-- The match over the channel at the top of `send_keepalive_up_needed`,
yielding the endpoint and the channel ID. -/
def channelParts : Channel → UsbEndpoint × Nat
  | .MainHid cid => (.MainHid, cid)
  | .VendorHid cid => (.VendorHid, cid)

/-- The outcome of one `usb_ctap_hid::send_or_recv_with_timeout` call
(`SendOrRecvStatus`). -/
inductive SendOrRecvStatus
  | Timeout
  | Sent
  | Received (endpoint : UsbEndpoint)
  deriving DecidableEq, Repr

/-- Modelled from the spec: `ProcessedPacket` of the `ctap/hid` module —
the two physical packet kinds of section 6. -/
inductive ProcessedPacket
  | InitPacket (cmd : Nat) (len : Nat) (data : List Nat)
  | ContinuationPacket (seq : Nat) (data : List Nat)
  deriving DecidableEq, Repr

/-- Modelled from the spec: `CtapHid::process_single_packet` — bytes 0-3
are the channel ID; byte 4 with the top bit set is an initialization
packet whose remaining 7 bits are the opcode and whose bytes 5-6 are the
big-endian declared length; with the top bit clear it is a continuation
packet carrying the sequence number (section 6 packet layout). -/
def process_single_packet (packet : List Nat) : Nat × ProcessedPacket :=
  let b := fun i => packet.getD i 0
  let cid := b 0 * 2 ^ 24 + b 1 * 2 ^ 16 + b 2 * 2 ^ 8 + b 3
  if 0x80 ≤ b 4 then
    (cid, .InitPacket (b 4 % 0x80) (b 5 * 2 ^ 8 + b 6) (packet.drop 7))
  else
    (cid, .ContinuationPacket (b 4) (packet.drop 5))

/-- The source `send_keepalive_up_needed`, specialized to the single packet of the
keepalive message (its payload is one status byte).  `status` is the
transmission outcome and `buf` the buffer contents after a receive.
`Except.ok ()` is the fall-through of the packet loop: the keepalive was
handled and no response is produced for any observed foreign packet. -/
def send_keepalive_up_needed (channel : Channel) (status : SendOrRecvStatus)
    (buf : List Nat) : Except Ctap2StatusCode Unit :=
  let endpoint := (channelParts channel).1
  let cid := (channelParts channel).2
  match status with
  | .Timeout => .ok ()
  | .Sent => .ok ()
  | .Received received_endpoint =>
    let received_cid := (process_single_packet buf).1
    let processed_packet := (process_single_packet buf).2
    if received_endpoint ≠ endpoint ∨ received_cid ≠ cid then
      .ok ()
    else
      match processed_packet with
      | .InitPacket cmd _ _ =>
        if cmd = CtapHidCommand.toByte .Cancel then
          .error .CTAP2_ERR_KEEPALIVE_CANCEL
        else
          .ok ()
      | .ContinuationPacket _ _ => .ok ()

/-! C5: cancellation detection during the keepalive transmission -/

/-- C5: while transmitting the keepalive, an observed inbound
initialization packet on the same endpoint and channel carrying the
cancel opcode makes the send return the cancel error (terminating the
wait as Cancelled); a packet on a different endpoint or channel, or one
carrying a different opcode, is ignored — the send falls through with
`ok` and no response message is produced for it. -/
theorem keepalive_cancel_detection (channel : Channel) (received_endpoint : UsbEndpoint)
    (buf : List Nat) :
    ((process_single_packet buf).1 = (channelParts channel).2 →
      received_endpoint = (channelParts channel).1 →
      ∀ len data,
        (process_single_packet buf).2 = .InitPacket (CtapHidCommand.toByte .Cancel) len data →
        send_keepalive_up_needed channel (.Received received_endpoint) buf =
          .error .CTAP2_ERR_KEEPALIVE_CANCEL) ∧
    (received_endpoint ≠ (channelParts channel).1 ∨
        (process_single_packet buf).1 ≠ (channelParts channel).2 →
      send_keepalive_up_needed channel (.Received received_endpoint) buf = .ok ()) ∧
    (∀ cmd len data,
      (process_single_packet buf).2 = .InitPacket cmd len data →
      cmd ≠ CtapHidCommand.toByte .Cancel →
      send_keepalive_up_needed channel (.Received received_endpoint) buf = .ok ()) := by
  refine ⟨?_, ?_, ?_⟩
  · intro hcid hep len data hpp
    unfold send_keepalive_up_needed
    dsimp only
    rw [if_neg (by simp [hep, hcid])]
    rw [hpp]
    dsimp only
    rw [if_pos rfl]
  · intro h
    unfold send_keepalive_up_needed
    dsimp only
    rw [if_pos h]
  · intro cmd len data hpp hcmd
    unfold send_keepalive_up_needed
    dsimp only
    by_cases h : received_endpoint ≠ (channelParts channel).1 ∨
        (process_single_packet buf).1 ≠ (channelParts channel).2
    · rw [if_pos h]
    · rw [if_neg h]
      rw [hpp]
      dsimp only
      rw [if_neg hcmd]

/-- C5, witness: on main-HID channel `0x01020304`, the packet with byte 4
equal to `0x91` (initialization, opcode `0x11` = cancel) cancels; the
same packet on channel `0x01020305` is ignored; the ping initialization
packet `0x81` on the right channel is ignored. -/
theorem keepalive_cancel_detection_w :
    send_keepalive_up_needed (.MainHid 0x01020304) (.Received .MainHid)
        [1, 2, 3, 4, 0x91, 0, 0] = .error .CTAP2_ERR_KEEPALIVE_CANCEL ∧
    send_keepalive_up_needed (.MainHid 0x01020305) (.Received .MainHid)
        [1, 2, 3, 4, 0x91, 0, 0] = .ok () ∧
    send_keepalive_up_needed (.MainHid 0x01020304) (.Received .MainHid)
        [1, 2, 3, 4, 0x81, 0, 0] = .ok () :=
  ⟨(keepalive_cancel_detection (.MainHid 0x01020304) .MainHid
      [1, 2, 3, 4, 0x91, 0, 0]).1 (by decide) (by decide) 0 [] (by decide),
   (keepalive_cancel_detection (.MainHid 0x01020305) .MainHid
      [1, 2, 3, 4, 0x91, 0, 0]).2.1 (by decide),
   (keepalive_cancel_detection (.MainHid 0x01020304) .MainHid
      [1, 2, 3, 4, 0x81, 0, 0]).2.2 0x01 0 [] (by decide) (by decide)⟩

/-! User-presence wait (`src/env/tock/mod.rs`, lines 388-467)

The wait is driven by the platform; one loop iteration consumes one
`UPInput` describing what the platform delivered during it: whether the
button callback recorded a touch, whether the keepalive alarm fired, and
— when it fired — the outcome of the keepalive transmission (itself
`send_keepalive_up_needed` on the observed traffic).  The alarm cleanup
(`stop_alarm`) has no effect other than its success assertion and is
modelled as succeeding. -/

/-- Rust `Result::is_err`. -/
def isErr : Except Ctap2StatusCode Unit → Bool
  | .error _ => true
  | .ok _ => false

/-- The platform events of one iteration of the wait loop. -/
structure UPInput where
  touch : Bool
  expired : Bool
  keepalive : Except Ctap2StatusCode Unit
  deriving Repr

/-- The acquisitions visible to the claims: whether the LEDs are lit
(by `blink_leds`) and whether the button listeners are enabled. -/
structure UPState where
  ledsOn : Bool
  buttonsEnabled : Bool
  deriving DecidableEq, Repr

/-- The `for i in 0..TIMEOUT_ITERATIONS` loop of `check_user_presence`:
blink, wait for touch or alarm, resend the keepalive if the alarm fired,
and break on a touch or a keepalive error.  Returns the sticky
`button_touched` cell, the last `keepalive_response` and the state.  The
iteration bound is the length of the input list. -/
def up_loop : List UPInput → Bool → Except Ctap2StatusCode Unit → UPState →
    Bool × Except Ctap2StatusCode Unit × UPState
  | [], button_touched, keepalive_response, st =>
    (button_touched, keepalive_response, st)
  | inp :: rest, button_touched, keepalive_response, st =>
    let st2 : UPState := { st with ledsOn := true }
    let touched2 := button_touched || inp.touch
    let response2 := if inp.expired then inp.keepalive else keepalive_response
    if touched2 || isErr response2 then
      (touched2, response2, st2)
    else
      up_loop rest touched2 response2 st2

/-- The source `check_user_presence`: `first` is the outcome of the initial
keepalive notification (its error propagates through `?` before the
buttons are enabled), then the loop runs, then — on every path out of
the loop — the LEDs are switched off and the button listeners disabled
before the result is computed. -/
def check_user_presence (first : Except Ctap2StatusCode Unit) (inputs : List UPInput) :
    Except Ctap2StatusCode Unit × UPState :=
  match first with
  | .error e => (.error e, ⟨false, false⟩)
  | .ok _ =>
    let r := up_loop inputs false (.ok ()) ⟨false, true⟩
    let button_touched := r.1
    let keepalive_response := r.2.1
    let st := { r.2.2 with ledsOn := false, buttonsEnabled := false }
    if isErr keepalive_response then
      (keepalive_response, st)
    else if button_touched then
      (.ok (), st)
    else
      (.error .CTAP2_ERR_USER_ACTION_TIMEOUT, st)

/-! C7: the wait releases its acquisitions on every exit path -/

/-- C7: whenever the wait enters the loop (the initial keepalive
notification succeeded), the state after `check_user_presence` has the
LEDs off and the button listeners disabled — for every possible run of
the loop, hence on the touch-confirmed, timed-out and cancelled exit
paths alike; and the result is always one of those three outcomes. -/
theorem user_presence_releases_resources (inputs : List UPInput) :
    (check_user_presence (.ok ()) inputs).2.ledsOn = false ∧
    (check_user_presence (.ok ()) inputs).2.buttonsEnabled = false ∧
    ((check_user_presence (.ok ()) inputs).1 = .ok () ∨
     (check_user_presence (.ok ()) inputs).1 = .error .CTAP2_ERR_USER_ACTION_TIMEOUT ∨
     (check_user_presence (.ok ()) inputs).1 = .error .CTAP2_ERR_KEEPALIVE_CANCEL) := by
  unfold check_user_presence
  dsimp only
  refine ⟨?_, ?_, ?_⟩
  · split
    · rfl
    · split <;> rfl
  · split
    · rfl
    · split <;> rfl
  · cases hr : (up_loop inputs false (.ok ()) ⟨false, true⟩).2.1 with
    | ok u =>
      by_cases ht : (up_loop inputs false (.ok ()) ⟨false, true⟩).1 = true
      · simp [ht, isErr]
      · simp [ht, isErr]
    | error e =>
      cases e <;> simp [isErr]

/-- Loop lemma for C10: a run of iterations without a touch and with
only successful keepalive resends, followed by an iteration in which a
touch is recorded and the keepalive resend reports cancellation, leaves
the cancellation error in `keepalive_response` when the loop breaks. -/
theorem up_loop_cancel_result (pre : List UPInput) (inp : UPInput) (rest : List UPInput)
    (st : UPState)
    (hpre : ∀ x ∈ pre, x.touch = false ∧ (x.expired = true → x.keepalive = .ok ()))
    (htouch : inp.touch = true) (hexp : inp.expired = true)
    (hka : inp.keepalive = .error .CTAP2_ERR_KEEPALIVE_CANCEL) :
    (up_loop (pre ++ inp :: rest) false (.ok ()) st).2.1 =
      .error .CTAP2_ERR_KEEPALIVE_CANCEL := by
  induction pre generalizing st with
  | nil =>
    rw [List.nil_append]
    unfold up_loop
    dsimp only
    rw [htouch, hexp, hka]
    simp [isErr]
  | cons x pre ih =>
    have hx := hpre x (List.mem_cons_self x pre)
    have hrest : ∀ y ∈ pre, y.touch = false ∧ (y.expired = true → y.keepalive = .ok ()) :=
      fun y hy => hpre y (List.mem_cons_of_mem x hy)
    show (up_loop (x :: (pre ++ inp :: rest)) false (.ok ()) st).2.1 = _
    unfold up_loop
    dsimp only
    have hresp : (if x.expired = true then x.keepalive else Except.ok ()) = Except.ok () := by
      by_cases hxe : x.expired = true
      · rw [if_pos hxe, hx.2 hxe]
      · rw [if_neg hxe]
    rw [hx.1, hresp]
    simp only [Bool.false_or, isErr, Bool.or_false]
    rw [if_neg (by simp)]
    exact ih _ hrest

/-! C10: cancellation takes precedence over a concurrent touch -/

/-- C10: if, within one iteration of the user-presence wait loop, both a
button touch is recorded and the keepalive transmission reports the
same-channel cancel (so the resend result is the cancel error), then
`check_user_presence` returns `CTAP2_ERR_KEEPALIVE_CANCEL` rather than
the presence-confirmed success, whatever came before or after. -/
theorem cancel_precedes_touch (pre : List UPInput) (inp : UPInput) (rest : List UPInput)
    (hpre : ∀ x ∈ pre, x.touch = false ∧ (x.expired = true → x.keepalive = .ok ()))
    (htouch : inp.touch = true) (hexp : inp.expired = true)
    (hka : inp.keepalive = .error .CTAP2_ERR_KEEPALIVE_CANCEL) :
    (check_user_presence (.ok ()) (pre ++ inp :: rest)).1 =
      .error .CTAP2_ERR_KEEPALIVE_CANCEL := by
  unfold check_user_presence
  dsimp only
  rw [up_loop_cancel_result pre inp rest _ hpre htouch hexp hka]
  simp [isErr]

/-- C10, witness: a single iteration with a touch, an expired alarm and
a cancelled keepalive resend ends the wait with the cancel error. -/
theorem cancel_precedes_touch_w :
    (check_user_presence (.ok ())
        [⟨true, true, .error .CTAP2_ERR_KEEPALIVE_CANCEL⟩]).1 =
      .error .CTAP2_ERR_KEEPALIVE_CANCEL :=
  cancel_precedes_touch [] ⟨true, true, .error .CTAP2_ERR_KEEPALIVE_CANCEL⟩ []
    (by simp) rfl rfl rfl

/-! C9: `wait_with_timeout` with a zero timeout -/

/-- The user-presence error type of the embedded API; only the timeout
variant is used by the embedded code. -/
inductive UserPresenceError
  | Timeout
  deriving DecidableEq, Repr

/-- The externally visible actions of `wait_with_timeout`, in program
order. -/
inductive WaitEffect
  | blinked (pattern_seed : Nat)
  | buttonsOn
  | suspended
  | buttonsOff
  deriving DecidableEq, Repr

/-- The source `TockEnv::wait_with_timeout`: returns the result (`none` models the
unreachable path where the suspension never ends), the new
`blink_pattern`, and the trace of effects.  `touch` and `expired` say
whether a button-press callback and the alarm callback fired during the
single suspension. -/
def wait_with_timeout (blink_pattern timeout : Nat) (touch expired : Bool) :
    Option (Except UserPresenceError Unit) × Nat × List WaitEffect :=
  if timeout = 0 then
    (some (.error .Timeout), blink_pattern, [])
  else
    if touch || expired then
      (some (if touch then .ok () else .error .Timeout), blink_pattern + 1,
        [.blinked blink_pattern, .buttonsOn, .suspended, .buttonsOff])
    else
      (none, blink_pattern + 1, [.blinked blink_pattern, .buttonsOn, .suspended])

/-- C9: with a timeout of exactly 0 milliseconds, `wait_with_timeout`
returns the Timeout error immediately: the blink pattern is not
advanced and the effect trace is empty — no LED blink, no button
listener enabling, no suspension. -/
theorem wait_with_timeout_zero (blink_pattern : Nat) (touch expired : Bool) :
    wait_with_timeout blink_pattern 0 touch expired =
      (some (.error .Timeout), blink_pattern, []) := rfl

end OpenSK
